import Mathlib

/-!
Shallow embedding of the conversation routing and assignment engine of the
whatsapp-panel repository, together with theorems that settle the frozen
claims C1..C10 about it.

The embedding translates the TypeScript sources:
  * `src/conversation-flow/conversation-flow.service.ts` (Conversation Engine),
  * `src/conversation-flow/redis-state-store.ts` (StateStore / Lease / Queue),
  * `src/chat/chat.service.ts` (Router and Assignment Scheduler),
  * `src/chat/chat.gateway.ts` (agent connection handling),
  * `src/chat/presence.service.ts` (Presence Registry),
  * `src/user/user.service.ts` (`findAgentWithFewerChats`).

Conventions of the translation:
  * JavaScript strings are Lean `String`s; the JS operations `trim`,
    `toLowerCase`, `includes`, `length` and the regex test `/\d/` are mirrored
    by executable functions over the underlying character list so that
    concrete evaluations go through `decide`.  JS `.length` counts UTF-16
    units while we count code points; the two agree on every input used in a
    proof below.  JS `toLowerCase` and Lean agree on ASCII input.
  * `await`ed I/O calls are modelled by explicit state passing over a `World`
    record; a call that can throw is modelled by a caller-supplied failure
    oracle, and a thrown exception is propagated as a `Bool` flag that mirrors
    the `try`/`catch`/`finally` structure of the source.
  * TypeScript in-place mutation of records becomes functional update.
-/

namespace WhatsappPanel

/-! ## JavaScript string primitives -/

/-- Lower-cases one ASCII letter; mirrors what `String.prototype.toLowerCase`
does on the ASCII range (all inputs appearing in proofs are ASCII). -/
def jsCharLower (c : Char) : Char :=
  if 'A' ≤ c ∧ c ≤ 'Z' then Char.ofNat (c.toNat + 32) else c

/-- Mirrors JS `s.toLowerCase()` on ASCII text. -/
def jsToLower (s : String) : String :=
  ⟨s.data.map jsCharLower⟩

/-- Drops leading whitespace characters of a character list. -/
def trimLeftList : List Char → List Char
  | [] => []
  | c :: cs => if c.isWhitespace then trimLeftList cs else c :: cs

/-- Mirrors JS `s.trim()`. -/
def jsTrim (s : String) : String :=
  ⟨(trimLeftList ((trimLeftList s.data).reverse)).reverse⟩

/-- Mirrors JS `s.includes(sub)` (substring containment). -/
def jsIncludes (s sub : String) : Bool :=
  decide (sub.data <:+: s.data)

/-- Mirrors JS `s.length` (code-point count in this model). -/
def jsLen (s : String) : Nat := s.data.length

/-- Mirrors the JS regex test `/\d/.test(s)`. -/
def hasDigit (s : String) : Bool := s.data.any Char.isDigit

/-- Mirrors `message.from.split('@')[0]` from `handleIncomingMessage`:
the characters before the first `@`. -/
def jsBeforeAt (s : String) : String :=
  ⟨s.data.takeWhile (fun c => c ≠ '@')⟩

/-! ## Enumerations and records of the data model -/

/-- `src/conversation-flow/conversation-state.enum.ts`. -/
inductive ConversationStep
  | START
  | MAIN_MENU
  | ASK_FOR_NAME
  | DISCLAIMER
  | PEDIR_CEDULA
  | MENU_DEUDAS
  | ELEGIR_EMPRESA
  | POST_DETAILS
  | SURVEY
  | VALIDAR_CEDULA
  | TRANSFERIR_AGENTE
  | FINALIZAR_CONVERSACION
  | MOSTRAR_LISTA_EMPRESAS
  | MOSTRAR_MENU
  | FALLBACK_MENU
  deriving DecidableEq, Repr

/-- `SurveyRating` from `src/chat/entities/survey-response.entity.ts`. -/
inductive SurveyRating
  | MALA
  | REGULAR
  | EXCELENTE
  deriving DecidableEq, Repr

/-- `ChatStatus` (`src/common/enums/chat-status.enum.ts`); the enum file is
not part of the snapshot but its three values are fixed by every use site
(`chat.service.ts`, `chat.entity.ts`) and by the spec's data model. -/
inductive ChatStatus
  | AUTO_RESPONDER
  | PENDING_ASSIGNMENT
  | ACTIVE
  deriving DecidableEq, Repr

/-- One entry of `UserState.empresas`
(`src/conversation-flow/conversation-flow.interface.ts`); the untyped
`items: any[]` payload is modelled as opaque strings. -/
structure EmpresaEntry where
  encabezado : String
  items : List String
  deriving DecidableEq, Repr

/-- `UserState` from `src/conversation-flow/conversation-flow.interface.ts`:
`step` is required, every other field is optional (`?:` in TS). -/
structure UserState where
  step : ConversationStep
  cedula : Option String := none
  empresas : Option (List EmpresaEntry) := none
  termsAccepted : Option Bool := none
  isFallback : Option Bool := none
  satisfactionRating : Option Nat := none
  deriving DecidableEq, Repr

/-- The JSON value stored under a contact's key in Redis, as produced by
`JSON.stringify` of a `UserState` (undefined fields are omitted) or by an
arbitrary earlier writer: every field, `step` included, may be absent. -/
structure StoredState where
  step : Option ConversationStep := none
  cedula : Option String := none
  empresas : Option (List EmpresaEntry) := none
  termsAccepted : Option Bool := none
  isFallback : Option Bool := none
  satisfactionRating : Option Nat := none
  deriving DecidableEq, Repr

/-- `Chat` entity (`src/chat/entities/chat.entity.ts`), restricted to the
fields the routing core reads or writes; `assignedTo` holds the agent id. -/
structure Chat where
  id : Nat
  contactNumber : String
  customerName : Option String := none
  status : ChatStatus
  assignedTo : Option Nat := none
  unreadCount : Nat := 0
  deriving DecidableEq, Repr

/-- An entry of the Presence Registry
(`src/chat/interfaces/agent-presence.interface.ts` as populated in
`chat.gateway.ts:handleConnection`). -/
structure AgentPresence where
  id : Nat
  role : String
  firstName : String := ""
  deriving DecidableEq, Repr

/-- A row of the user table (`src/user/user.entity.ts`), restricted to what
`findAgentWithFewerChats` consults. -/
structure UserWha where
  id : Nat
  role : String
  firstName : String := ""
  email : String := ""
  deriving DecidableEq, Repr

/-- A persisted `SurveyResponse` row (`survey-response.entity.ts`):
chat id, rating, optional free-text comment. -/
structure SurveyRecord where
  chatId : Nat
  rating : SurveyRating
  comment : Option String := none
  deriving DecidableEq, Repr

/-! ## RedisStateStore: default state, serialization, merge -/

/-- `RedisStateStore.getDefaultState`. -/
def getDefaultState : UserState :=
  { step := ConversationStep.START
    termsAccepted := some false
    isFallback := some false }

/-- `JSON.stringify` of a `UserState` as stored by `setUserState`:
present fields are kept, absent (undefined) fields are omitted. -/
def serializeState (s : UserState) : StoredState :=
  { step := some s.step
    cedula := s.cedula
    empresas := s.empresas
    termsAccepted := s.termsAccepted
    isFallback := s.isFallback
    satisfactionRating := s.satisfactionRating }

/-- The spread merge `{ ...defaultState, ...parsedState }` in
`getUserState`: a key present in the parsed object wins, a missing key falls
back to the default object (whose own keys are `step`, `termsAccepted`,
`isFallback`). -/
def mergeWithDefault (d : UserState) (p : StoredState) : UserState :=
  { step := p.step.getD d.step
    cedula := p.cedula <|> d.cedula
    empresas := p.empresas <|> d.empresas
    termsAccepted := p.termsAccepted <|> d.termsAccepted
    isFallback := p.isFallback <|> d.isFallback
    satisfactionRating := p.satisfactionRating <|> d.satisfactionRating }

/-- Outcome of the raw Redis `GET` plus `JSON.parse` inside `getUserState`:
the read may throw (`rerr`), the key may be absent (`rmiss`), the stored
text may fail to parse (`rbad`), or a JSON object is obtained (`rok`). -/
inductive RedisRead
  | rerr
  | rmiss
  | rbad
  | rok (p : StoredState)
  deriving DecidableEq, Repr

/-- The value `RedisStateStore.getUserState` returns for each read outcome:
a throwing read or a parse failure is caught and yields the default state;
a missing key yields the default state (after writing it back); a parsed
object is merged over the default. -/
def getUserStateResult : RedisRead → UserState
  | RedisRead.rerr => getDefaultState
  | RedisRead.rmiss => getDefaultState
  | RedisRead.rbad => getDefaultState
  | RedisRead.rok p => mergeWithDefault getDefaultState p

/-! ## The externally shared store (Redis) as explicit state -/

/-- Association-list update/insert for string-keyed stores. -/
def kvSet (kv : List (String × StoredState)) (k : String) (v : StoredState) :
    List (String × StoredState) :=
  match kv with
  | [] => [(k, v)]
  | (k0, v0) :: rest =>
      if k0 = k then (k0, v) :: rest else (k0, v0) :: kvSet rest k v

/-- Association-list lookup. -/
def kvGet (kv : List (String × StoredState)) (k : String) : Option StoredState :=
  match kv with
  | [] => none
  | (k0, v0) :: rest => if k0 = k then some v0 else kvGet rest k

/-- `RedisStateStore.getKey`. -/
def stateKey (contactNumber : String) : String :=
  "conversation_state:" ++ contactNumber

/-- `redisClient.lPush` (the queue is kept most-recent-first, as Redis does
for a list written with `lPush`). -/
def lPush (q : List Nat) (x : Nat) : List Nat := x :: q

/-- `redisClient.rPop`: removes and returns the element at the right end,
i.e. the oldest `lPush`ed one. -/
def rPop (q : List Nat) : Option Nat × List Nat :=
  (q.getLast?, q.dropLast)

/-! ## Conversation Engine (`conversation-flow.service.ts`)

The engine is embedded as a pure function.  Two pieces of ambient
information are passed explicitly: the current hour (`new Date().getHours()`
inside `getTimeGreeting`) and the results of the two SQL lookups of the
cedula path (`findClientById`, `mostrarListaEmpresas`).  The re-fetched
`freshChat` of line 33 is the chat record the caller holds. -/

/-- JS truthiness of a nullable string (`null` and `""` are falsy). -/
def jsTruthy : Option String → Bool
  | none => false
  | some s => s ≠ ""

/-- JS template-literal rendering of a nullable string (`null` prints as
the text `null`). -/
def jsStr : Option String → String
  | none => "null"
  | some s => s

/-- The sentinel reply `handleMainMenuStep` returns for the advisor option,
which `chat.service.ts` line 159 recognizes by string equality. -/
def advisorSentinel : String := "__ACTIVATE_CHAT_WITH_ADVISOR__"

/-- `getTimeGreeting`, with the wall-clock hour as an argument. -/
def getTimeGreeting (hour : Nat) : String :=
  if 5 ≤ hour ∧ hour < 12 then "Buenos días"
  else if 12 ≤ hour ∧ hour < 19 then "Buenas tardes"
  else "Buenas noches"

/-- `getMainMenuText(name?, includeIntro = true)`. -/
def getMainMenuText (hour : Nat) (name : Option String) (includeIntro : Bool) : String :=
  let intro :=
    if includeIntro then
      "¡" ++ getTimeGreeting hour ++ ", " ++ name.getD "" ++ "! Soy Kika 🤖.\n" ++
        "Es un gusto saludarte. ¿En qué puedo ayudarte hoy?\n\n"
    else
      (if jsTruthy name then
        "¿En qué más te puedo ayudar, " ++ name.getD "" ++ "? 👇"
      else "Aquí tienes tus opciones:") ++ "\n\n"
  intro ++ "1️⃣ Consultar Deudas\n" ++ "2️⃣ Hablar con un asesor\n" ++
    "\n💡 _(Escribe \"Salir\" para terminar)_"

/-- `getSurveyQuestion`. -/
def getSurveyQuestion : String :=
  "Antes de irte, ¿me regalas 5 segundos? ⏱️\n\n¿Cómo calificarías mi atención hoy?\n\n1️⃣ Mala\n2️⃣ Regular\n3️⃣ Excelente!\n\n_(Solo escribe el número)_"

/-- The fixed keyword set of `handleExitCommands`. -/
def exitCommands : List String :=
  ["salir", "chao", "adios", "fin", "terminar", "cancelar", "0", "menu", "inicio"]

/-- The optional record `handleExitCommands` returns (`newStep?`,
`resetTerms?` are optional in TS; an absent `resetTerms` is falsy). -/
structure ExitResponse where
  message : String
  newStep : Option ConversationStep := none
  resetTerms : Bool := false
  deriving DecidableEq, Repr

/-- `handleExitCommands(lowerText, userState, freshChat)`. -/
def handleExitCommands (hour : Nat) (lowerText : String) (userState : UserState)
    (freshChat : Chat) : Option ExitResponse :=
  if lowerText ∉ exitCommands then none
  else if userState.step = ConversationStep.MAIN_MENU ∧
      lowerText ∈ ["menu", "inicio", "0"] then
    some { message := getMainMenuText hour freshChat.customerName true }
  else if lowerText ∈ ["salir", "chao", "adios", "fin", "terminar"] then
    some { message := getSurveyQuestion, newStep := some ConversationStep.SURVEY }
  else
    some { message := "¡Entendido! Regresamos al menú principal 🏠.\n\n" ++
            getMainMenuText hour freshChat.customerName false
           newStep := some ConversationStep.MAIN_MENU
           resetTerms := true }

/-- Results of the engine's two SQL lookups, supplied by the caller:
`clientNombre` is the `nombre` column of the row `findClientById` finds (if
any), `deudasTexto` the text `mostrarListaEmpresas` builds. -/
structure FlowDb where
  clientNombre : Option String := none
  deudasTexto : String := ""
  deriving DecidableEq, Repr

/-- The re-prompt of `handleNameStep` for an invalid name. -/
def nameRejectMessage : String :=
  "Mmm... ese nombre no parece válido 🤔. Por favor, escribe solo tu nombre real para continuar."

/-- `handleStartStep`. -/
def handleStartStep (hour : Nat) (userState : UserState) (freshChat : Chat) :
    UserState × String :=
  if jsTruthy freshChat.customerName then
    ({ userState with step := ConversationStep.MAIN_MENU },
      getMainMenuText hour freshChat.customerName true)
  else
    ({ userState with step := ConversationStep.ASK_FOR_NAME },
      getTimeGreeting hour ++
        " 👋 Soy Kika, tu asistente virtual.\n\nPara brindarte una mejor atención, ¿podrías indicarme tu nombre, por favor?")

/-- `handleNameStep`; the third component is the customer name persisted by
`this.dataSource.getRepository(Chat).save(freshChat)`, when that happens. -/
def handleNameStep (hour : Nat) (userState : UserState) (text : String) :
    UserState × String × Option String :=
  if jsLen text < 3 ∨ hasDigit text then
    (userState, nameRejectMessage, none)
  else
    ({ userState with step := ConversationStep.MAIN_MENU },
      getMainMenuText hour (some text) true, some text)

/-- `handleMainMenuStep`. -/
def handleMainMenuStep (hour : Nat) (userState : UserState) (text lowerText : String)
    (freshChat : Chat) : UserState × String :=
  let isConsultOption :=
    text = "1" ∨ jsIncludes lowerText "consultar" ∨ jsIncludes lowerText "deuda"
  let isAdvisorOption :=
    text = "2" ∨ jsIncludes lowerText "asesor" ∨ jsIncludes lowerText "agente"
  if isConsultOption then
    if userState.termsAccepted = some true then
      ({ userState with step := ConversationStep.PEDIR_CEDULA },
        "¡Perfecto! 👌 Por favor, ingresa tu número de cédula para realizar la consulta.")
    else
      ({ userState with step := ConversationStep.DISCLAIMER },
        "Antes de mostrarte información privada 🔒, necesito que aceptes nuestros Términos y Condiciones: https://www.finsolred.com/terminos-y-condiciones-uso-del-chatbot\n\n¿Estás de acuerdo? (Responde \"Sí\" o \"No\")")
  else if isAdvisorOption then
    (userState, advisorSentinel)
  else
    (userState,
      "No entendí esa opción 😅. Por favor, elige una de las siguientes:\n\n" ++
        getMainMenuText hour freshChat.customerName false)

/-- `handleDisclaimerStep`. -/
def handleDisclaimerStep (hour : Nat) (userState : UserState) (lowerText : String) :
    UserState × String :=
  if lowerText ∈ ["si", "sí", "acepto", "ok", "claro", "dele"] then
    ({ userState with termsAccepted := some true, step := ConversationStep.PEDIR_CEDULA },
      "¡Gracias por confirmar! ✅\n\nAhora sí, escríbeme tu número de cédula para buscar tus deudas.")
  else if lowerText ∈ ["no", "rechazo", "nunca", "jamás"] then
    ({ userState with step := ConversationStep.MAIN_MENU },
      "Comprendo. Respetamos tu privacidad, pero sin tu autorización no puedo mostrarte la información 🛡️.\n\n" ++
        getMainMenuText hour none false)
  else
    (userState,
      "Necesito una confirmación clara. Por favor responde \"Sí\" para continuar o \"No\" para cancelar.")

/-- `buildClientDebtResponse`. -/
def buildClientDebtResponse (hour : Nat) (clientNombre idInput : String)
    (freshChat : Chat) (userState : UserState) (db : FlowDb) : UserState × String :=
  let deudasTexto := db.deudasTexto
  let responseText :=
    if jsIncludes deudasTexto "Buenas noticias" then
      "¡Estimado/a " ++ jsStr freshChat.customerName ++
        ", te tengo buenas noticias! 🎉\n\n*No registras deudas pendientes con nosotros.*"
    else
      "Hola " ++ clientNombre ++ ", aquí tienes tu estado de cuenta 📄:\n\n" ++ deudasTexto
  ({ userState with step := ConversationStep.MAIN_MENU },
    responseText ++
      "\n💡 *Tip:* Si necesitas detalles específicos, la opción 2 te conecta con un humano.\n\n" ++
      getMainMenuText hour freshChat.customerName false)

/-- `handleCedulaStep`. -/
def handleCedulaStep (hour : Nat) (userState : UserState) (text : String)
    (freshChat : Chat) (db : FlowDb) : UserState × String :=
  let idInput := jsTrim text
  if jsLen idInput < 5 then
    (userState, "El número parece muy corto. Por favor verifica e intenta nuevamente.")
  else
    match db.clientNombre with
    | some nombre => buildClientDebtResponse hour nombre idInput freshChat userState db
    | none =>
        ({ userState with step := ConversationStep.MAIN_MENU },
          "Busqué en el sistema 🔎, pero no encontré registros con la cédula *" ++ idInput ++
            "*.\n\n¿Deseas intentar otra vez?\n" ++
            getMainMenuText hour freshChat.customerName false)

/-- `processConversationStep`; the third component is the customer name
persisted by `handleNameStep`, when any. -/
def processConversationStep (hour : Nat) (userState : UserState)
    (text lowerText : String) (freshChat : Chat) (db : FlowDb) :
    UserState × String × Option String :=
  match userState.step with
  | ConversationStep.START =>
      let r := handleStartStep hour userState freshChat
      (r.1, r.2, none)
  | ConversationStep.ASK_FOR_NAME => handleNameStep hour userState text
  | ConversationStep.MAIN_MENU =>
      let r := handleMainMenuStep hour userState text lowerText freshChat
      (r.1, r.2, none)
  | ConversationStep.DISCLAIMER =>
      let r := handleDisclaimerStep hour userState lowerText
      (r.1, r.2, none)
  | ConversationStep.PEDIR_CEDULA =>
      let r := handleCedulaStep hour userState text freshChat db
      (r.1, r.2, none)
  | _ =>
      ({ userState with step := ConversationStep.MAIN_MENU },
        "¡Ups! 😅 Me confundí un poco. Mejor empecemos de nuevo.\n\n" ++
          getMainMenuText hour freshChat.customerName true, none)

/-- The effects and reply of one engine invocation
(`ConversationFlowService.handleIncomingMessage`): the reply text, the state
written by `setUserState` (if called), whether `resetUserState` was called,
the customer name persisted by `handleNameStep` (if any), the
`SurveyResponse` row persisted by `handleSurvey` (if any), and whether
`chatService.finalizeChat` was invoked (that method's body is outside the
snapshot and is left uninterpreted). -/
structure FlowResult where
  message : String
  userState : Option UserState := none
  resetState : Bool := false
  savedCustomerName : Option String := none
  surveySaved : Option SurveyRecord := none
  finalizedChat : Bool := false
  deriving DecidableEq, Repr

/-- `handleSurvey(chat, text)`: substring classification with priority
1/mala, then 2/regular, then 3/excelente; the local `comment` is set only
for an unmatched input, and the `SurveyResponse` row is created only when a
rating matched (with `comment` then still null), so an unmatched input is
never persisted.  The DB write sits in a try/catch that only logs; the
success path is modelled.  `resetUserState` runs in every case. -/
def handleSurvey (chat : Chat) (text : String) : FlowResult :=
  let choice := jsToLower (jsTrim text)
  let rating : Option SurveyRating :=
    if jsIncludes choice "1" ∨ jsIncludes choice "mala" then some SurveyRating.MALA
    else if jsIncludes choice "2" ∨ jsIncludes choice "regular" then some SurveyRating.REGULAR
    else if jsIncludes choice "3" ∨ jsIncludes choice "excelente" then some SurveyRating.EXCELENTE
    else none
  let comment : Option String := if rating.isNone then some text else none
  { message := "¡Muchas gracias por tu opinión! 🙌 Que tengas un día genial. Kika se despide."
    userState := none
    resetState := true
    surveySaved :=
      rating.map (fun r => { chatId := chat.id, rating := r, comment := comment })
    finalizedChat := rating.isSome }

/-- `ConversationFlowService.handleIncomingMessage(chat, rawText)` as a pure
function of the chat record, the user state read from the store, the raw
text, the wall-clock hour and the SQL lookup results. -/
def flowHandleIncomingMessage (chat : Chat) (userState : UserState)
    (rawText : String) (hour : Nat) (db : FlowDb) : FlowResult :=
  let text := jsTrim rawText
  let lowerText := jsToLower text
  match handleExitCommands hour lowerText userState chat with
  | some er =>
      match er.newStep with
      | some st =>
          { message := er.message
            userState := some { userState with
              step := st
              termsAccepted :=
                if er.resetTerms then some false else userState.termsAccepted } }
      | none => { message := er.message }
  | none =>
      if userState.step = ConversationStep.SURVEY then
        handleSurvey chat text
      else
        let r := processConversationStep hour userState text lowerText chat db
        { message := r.2.1, userState := some r.1, savedCustomerName := r.2.2 }

/-! ## The shared world

All externally shared state (chat table, user table, Redis keys, queue,
locks) together with the process-local presence map and timer maps, plus
append-only traces of the observable effects: every `chatRepo.save`
(`savedChats`), every outbound WhatsApp text (`sentBot`), system messages,
customer messages and persisted survey rows. -/
structure World where
  chats : List Chat := []
  users : List UserWha := []
  presence : List (String × AgentPresence) := []
  userStates : List (String × StoredState) := []
  queue : List Nat := []
  locks : List String := []
  nextChatId : Nat := 1
  savedChats : List Chat := []
  sentBot : List (String × String) := []
  sysMsgs : List (Nat × String) := []
  customerMsgs : List (Nat × String) := []
  surveysDb : List SurveyRecord := []
  respTimers : List (Nat × Nat) := []
  autoTimers : List Nat := []
  deriving DecidableEq, Repr

/-- `RedisStateStore.getUserState` acting on the store: a missing key writes
the default back (`setUserState`) and returns it; a present value is merged
over the default.  The per-branch return value is `getUserStateResult`. -/
def getUserStateW (w : World) (contactNumber : String) : UserState × World :=
  let key := stateKey contactNumber
  match kvGet w.userStates key with
  | none =>
      (getUserStateResult RedisRead.rmiss,
        { w with userStates := kvSet w.userStates key (serializeState getDefaultState) })
  | some p => (getUserStateResult (RedisRead.rok p), w)

/-- `RedisStateStore.setUserState`. -/
def setUserStateW (w : World) (contactNumber : String) (state : UserState) : World :=
  { w with userStates := kvSet w.userStates (stateKey contactNumber) (serializeState state) }

/-- `RedisStateStore.resetUserState`. -/
def resetUserStateW (w : World) (contactNumber : String) : World :=
  setUserStateW w contactNumber getDefaultState

/-- Outcome of the `SET key 1 PX ttl NX` call inside `acquireLock`. -/
inductive SetNXOutcome
  | okNX
  | existsAlready
  | errNX
  deriving DecidableEq, Repr

/-- `RedisStateStore.acquireLock`, as a function of the store call's
outcome: only an `OK` reply grants the lock; an existing key or a thrown
store error (caught by the surrounding try/catch) yields `false`. -/
def acquireLock : SetNXOutcome → Bool
  | SetNXOutcome.okNX => true
  | SetNXOutcome.existsAlready => false
  | SetNXOutcome.errNX => false

/-- The outcome the shared store produces for `SET .. NX` on `key`:
an error if Redis is unreachable, failure if the key exists, `OK` else. -/
def setNXOutcome (w : World) (key : String) (redisDown : Bool) : SetNXOutcome :=
  if redisDown then SetNXOutcome.errNX
  else if w.locks.contains key then SetNXOutcome.existsAlready
  else SetNXOutcome.okNX

/-- `acquireLock` acting on the store: the key is written exactly when the
lock is granted. -/
def acquireLockW (w : World) (key : String) (redisDown : Bool) : Bool × World :=
  match setNXOutcome w key redisDown with
  | SetNXOutcome.okNX => (acquireLock SetNXOutcome.okNX, { w with locks := key :: w.locks })
  | o => (acquireLock o, w)

/-- `RedisStateStore.releaseLock` (`DEL key`); its own try/catch only logs,
and the success path of the deletion is modelled. -/
def releaseLockW (w : World) (key : String) : World :=
  { w with locks := w.locks.filter (fun k => k ≠ key) }

/-- `chatRepo.findOne({ where: { contactNumber } })`. -/
def findChatByContact (w : World) (contactNumber : String) : Option Chat :=
  w.chats.find? (fun c => c.contactNumber == contactNumber)

/-- `chatRepo.findOne({ where: { id: chatId } })`. -/
def findChatById (w : World) (chatId : Nat) : Option Chat :=
  w.chats.find? (fun c => c.id == chatId)

/-- Replaces the row with the same id, or inserts the record. -/
def updateChatList : List Chat → Chat → List Chat
  | [], c => [c]
  | c0 :: rest, c => if c0.id = c.id then c :: rest else c0 :: updateChatList rest c

/-- `chatRepo.save(chat)`: writes the row and appends the persisted state to
the `savedChats` trace. -/
def saveChatW (w : World) (c : Chat) : World :=
  { w with chats := updateChatList w.chats c, savedChats := w.savedChats ++ [c] }

/-- `incrementUnreadCount` (a direct column update, not a row save). -/
def incrementUnread (w : World) (chatId amount : Nat) : World :=
  { w with chats := w.chats.map (fun c =>
      if c.id == chatId then { c with unreadCount := c.unreadCount + amount } else c) }

/-- `createSystemMessage`. -/
def addSysMsgW (w : World) (chatId : Nat) (content : String) : World :=
  { w with sysMsgs := w.sysMsgs ++ [(chatId, content)] }

/-- The message-record part of `sendBotMessage` after a successful
`whatsappService.sendMessage` (its failure is a router-oracle flag). -/
def addSentBotW (w : World) (contactNumber text : String) : World :=
  { w with sentBot := w.sentBot ++ [(contactNumber, text)] }

/-- `presenceService.getConnectedAgents()` (map values in insertion order). -/
def getConnectedAgents (w : World) : List AgentPresence :=
  w.presence.map (fun p => p.2)

/-- `startAgentResponseTimer`: cancels any previous response timer of the
chat and records the new one keyed to the agent. -/
def startAgentResponseTimerW (w : World) (chatId agentId : Nat) : World :=
  { w with respTimers := (chatId, agentId) :: w.respTimers.filter (fun p => p.1 ≠ chatId) }

/-- `cancelAgentResponseTimer`. -/
def cancelAgentResponseTimerW (w : World) (chatId : Nat) : World :=
  { w with respTimers := w.respTimers.filter (fun p => p.1 ≠ chatId) }

/-- `startAutoResponderTimer` (only the live-timer bookkeeping). -/
def startAutoResponderTimerW (w : World) (chatId : Nat) : World :=
  { w with autoTimers := chatId :: w.autoTimers.filter (fun c => c ≠ chatId) }

/-- `UserService.findAgentWithFewerChats(connectedAgentIds, excludeAgentId?)`.
The SQL counts each candidate's ACTIVE chats, keeps `role = 'agent'` and
`id IN connectedAgentIds`, orders by the count ascending and takes one row;
a tie is resolved by the first row in table order (the SQL leaves tie order
to the database).  `excludeAgentId = 0` models the absent argument: the
source guards the extra `WHERE` clause with JS truthiness
(`if (excludeAgentId)`). -/
def countActiveChats (w : World) (agentId : Nat) : Nat :=
  (w.chats.filter (fun c =>
    c.status == ChatStatus.ACTIVE && c.assignedTo == some agentId)).length

/-- Selects the candidate with the fewest ACTIVE chats, first-row tie-break. -/
def pickFewest (w : World) : List UserWha → Option UserWha
  | [] => none
  | u :: rest =>
      match pickFewest w rest with
      | none => some u
      | some b => if countActiveChats w b.id < countActiveChats w u.id then some b else some u

/-- See `countActiveChats`; returns the chosen agent's id. -/
def findAgentWithFewerChats (w : World) (connectedAgentIds : List Nat)
    (excludeAgentId : Nat) : Option Nat :=
  if connectedAgentIds.isEmpty then none
  else
    (pickFewest w (w.users.filter (fun u =>
      u.role == "agent" && connectedAgentIds.contains u.id &&
        (excludeAgentId == 0 || u.id != excludeAgentId)))).map (fun u => u.id)

/-- The explicit failures `assignChat` surfaces to its caller. -/
inductive AssignError
  | chatNotFound
  | agentNotFound
  | agentNotConnected
  deriving DecidableEq, Repr

/-- The display name used in release system messages
(`chat.assignedTo ? chat.assignedTo.firstName : 'un agente'`). -/
def releasingAgentName (w : World) (chat : Chat) : String :=
  match chat.assignedTo with
  | none => "un agente"
  | some aid =>
      match w.users.find? (fun u => u.id == aid) with
      | some u => u.firstName
      | none => "un agente"

/-- `ChatService.assignChat(chatId, agentId, isAutoAssignment)`: validates
chat and agent, rejects a manual assignment to a disconnected agent, then
persists `assignedTo`, `status = ACTIVE` and starts the response timer. -/
def assignChat (w : World) (chatId agentId : Nat) (isAutoAssignment : Bool) :
    Except AssignError World :=
  match findChatById w chatId with
  | none => Except.error AssignError.chatNotFound
  | some chat =>
      match w.users.find? (fun u => u.id == agentId) with
      | none => Except.error AssignError.agentNotFound
      | some agent =>
          let isAgentConnected := (getConnectedAgents w).any (fun a => a.id == agentId)
          if !isAgentConnected && !isAutoAssignment then
            Except.error AssignError.agentNotConnected
          else
            let chat1 := { chat with assignedTo := some agentId, status := ChatStatus.ACTIVE }
            let w1 := saveChatW w chat1
            let assignmentType := if isAutoAssignment then "automáticamente" else "manualmente"
            let shownName := if agent.firstName ≠ "" then agent.firstName else agent.email
            let w2 := addSysMsgW w1 chat1.id
              ("Chat asignado " ++ assignmentType ++ " a: " ++ shownName ++ ".")
            Except.ok (startAgentResponseTimerW w2 chat1.id agentId)

/-- The survey question `releaseChat` sends when `sendSurvey` is true. -/
def releaseSurveyQuestion : String :=
  "Antes de finalizar, ¿podría calificar mi atención?\n\n1. Mala\n2. Regular\n3. Excelente\n\n(Por favor escriba el número)"

/-- `ChatService.releaseChat(chatId, sendSurvey = true)`: cancels the
response timer, persists `AUTO_RESPONDER` with a null assignee, and when
`sendSurvey` sends the rating question and moves the dialogue step to
SURVEY (that block's try/catch only logs; the success path is modelled). -/
def releaseChat (w : World) (chatId : Nat) (sendSurvey : Bool) :
    Except AssignError World :=
  let w0 := cancelAgentResponseTimerW w chatId
  match findChatById w0 chatId with
  | none => Except.error AssignError.chatNotFound
  | some chat =>
      let agentName := releasingAgentName w0 chat
      let chat1 := { chat with status := ChatStatus.AUTO_RESPONDER, assignedTo := none }
      let w1 := saveChatW w0 chat1
      let w2 := addSysMsgW w1 chat1.id ("Chat liberado por " ++ agentName ++ ".")
      if sendSurvey then
        let w3 := addSentBotW w2 chat1.contactNumber releaseSurveyQuestion
        let r := getUserStateW w3 chat1.contactNumber
        Except.ok (setUserStateW r.2 chat1.contactNumber
          { r.1 with step := ConversationStep.SURVEY })
      else
        Except.ok w2

/-- `ChatService.autoAssignChat(chat)`: with no connected agent of role
`agent` the chat is persisted as PENDING_ASSIGNMENT and its id pushed onto
the wait queue; otherwise the least-loaded connected agent is assigned. -/
def autoAssignChat (w : World) (chat : Chat) : Except AssignError World :=
  let availableAgentIds :=
    ((getConnectedAgents w).filter (fun u => u.role == "agent")).map (fun a => a.id)
  if availableAgentIds.isEmpty then
    let chat1 := { chat with status := ChatStatus.PENDING_ASSIGNMENT }
    let w1 := saveChatW w chat1
    let w2 := { w1 with queue := lPush w1.queue chat1.id }
    Except.ok (addSysMsgW w2 chat1.id "Sin asesores disponibles. Chat en cola de espera.")
  else
    match findAgentWithFewerChats w availableAgentIds 0 with
    | some bestId => assignChat w chat.id bestId true
    | none => Except.ok w

/-- The holding message `activateChatWithAdvisor` sends. -/
def handoffMessage : String :=
  "¡Entendido! Uno de nuestros asesores se pondrá en contacto con usted lo más pronto posible. Por favor espere un momento. ⏳"

/-- `ChatService.activateChatWithAdvisor(chat)`: persists `status = ACTIVE`
(leaving `assignedTo` as it was), sends the holding message, records the
system message, and invokes the Assignment Scheduler. -/
def activateChatWithAdvisor (w : World) (chat : Chat) : Except AssignError World :=
  let chat1 := { chat with status := ChatStatus.ACTIVE }
  let w1 := saveChatW w chat1
  let w2 := addSentBotW w1 chat1.contactNumber handoffMessage
  let w3 := addSysMsgW w2 chat1.id "Cliente solicitó asesor. Mensaje de espera enviado."
  autoAssignChat w3 chat1

/-- `ChatService.reassignUnansweredChat(chatId, unresponsiveAgentId)` — the
response-timer callback: a stale firing (chat gone, no longer ACTIVE, or no
longer assigned to that agent) does nothing; otherwise the least-loaded
other agent is assigned, and with none available the chat is released back
to the auto responder without a survey. -/
def reassignUnansweredChat (w : World) (chatId unresponsiveAgentId : Nat) :
    Except AssignError World :=
  match findChatById w chatId with
  | none => Except.ok w
  | some chat =>
      if chat.status ≠ ChatStatus.ACTIVE ∨ chat.assignedTo ≠ some unresponsiveAgentId then
        Except.ok w
      else
        let availableAgentIds :=
          ((getConnectedAgents w).filter (fun u => u.role == "agent")).map (fun a => a.id)
        match findAgentWithFewerChats w availableAgentIds unresponsiveAgentId with
        | some nextId => assignChat w chat.id nextId true
        | none => releaseChat w chatId false

/-- `ChatGateway.handleConnection` for an authenticated socket: agents and
admins are added to the Presence Registry; for role `agent` one entry is
popped from the wait queue (if any) and auto-assigned to the new agent. -/
def onAgentConnected (w : World) (socketId : String) (agent : AgentPresence) :
    Except AssignError World :=
  let w1 :=
    if agent.role == "agent" || agent.role == "admin" then
      { w with presence := w.presence ++ [(socketId, agent)] }
    else w
  if agent.role == "agent" then
    let r := rPop w1.queue
    match r.1 with
    | some waitingChatId => assignChat { w1 with queue := r.2 } waitingChatId agent.id true
    | none => Except.ok w1
  else
    Except.ok w1

/-! ## The Router (`ChatService.handleIncomingMessage`)

Each `await`ed call inside the `try` block may throw; the oracle below says
which ones do.  A flag makes every call of its kind throw (before taking
effect), which is enough to exercise every catch path the claims quantify
over.  The `finally` clause is mirrored by the wrapper
`handleIncomingMessageR`, which invokes `releaseLock` on both the normal
and the caught-exception exit of the body. -/

/-- An inbound record from the messaging collaborator
(`SimplifiedMessage` in `whatsapp.service.ts`); `fromJid` is the `from`
field (`number@server`). -/
structure SimplifiedMessage where
  fromJid : String
  body : String
  hasMedia : Bool := false
  deriving DecidableEq, Repr

/-- Failure oracle plus ambient inputs for one router invocation. -/
structure RouterOracle where
  redisDown : Bool := false
  findChatFails : Bool := false
  saveChatFails : Bool := false
  saveCustomerFails : Bool := false
  whatsappReady : Bool := true
  sysMsgFails : Bool := false
  schedFails : Bool := false
  typingFails : Bool := false
  flowFails : Bool := false
  sendFails : Bool := false
  hour : Nat := 9
  db : FlowDb := {}
  deriving DecidableEq, Repr

/-- Result of the `try` body: the world at exit, whether an exception left
the body (to be swallowed by the outer `catch`), whether the Conversation
Engine ran, whether the escalation branch ran, and the reply sent (if any). -/
structure BodyOut where
  w : World
  thrown : Bool := false
  engineInvoked : Bool := false
  escalated : Bool := false
  replied : Option String := none
  deriving DecidableEq, Repr

/-- `saveCustomerMessage(chat, message)`: persists the message record,
increments the unread counter and saves the chat row. -/
def saveCustomerMessageW (w : World) (chat : Chat) (msg : SimplifiedMessage) : World :=
  let w1 := { w with customerMsgs := w.customerMsgs ++ [(chat.id, msg.body)] }
  saveChatW (incrementUnread w1 chat.id 1) chat

/-- Applies the persisted effects of one engine invocation to the world:
the customer-name save of `handleNameStep`, the survey row of
`handleSurvey`, then the `setUserState` / `resetUserState` write. -/
def applyFlowEffects (w : World) (chat : Chat) (fr : FlowResult) : World :=
  let w1 :=
    match fr.savedCustomerName with
    | some n => saveChatW w { chat with customerName := some n }
    | none => w
  let w2 :=
    match fr.surveySaved with
    | some rec => { w1 with surveysDb := w1.surveysDb ++ [rec] }
    | none => w1
  let w3 :=
    match fr.userState with
    | some us => setUserStateW w2 chat.contactNumber us
    | none => w2
  if fr.resetState then resetUserStateW w3 chat.contactNumber else w3

/-- The generic apology the inner `catch` sends before force-escalating. -/
def apologyMessage : String :=
  "Tuve un problema técnico. Un asesor te contactará pronto."

/-- The inner `catch` of the bot-flow section (`chat.service.ts` 168-173):
send typing, send the apology, force-escalate; any throw inside it
propagates to the outer catch. -/
def routerInnerCatch (w : World) (chat : Chat) (o : RouterOracle)
    (engineWasInvoked : Bool) : BodyOut :=
  if o.typingFails then { w := w, thrown := true, engineInvoked := engineWasInvoked }
  else if o.sendFails then { w := w, thrown := true, engineInvoked := engineWasInvoked }
  else
    let w1 := addSentBotW w chat.contactNumber apologyMessage
    if o.schedFails then { w := w1, thrown := true, engineInvoked := engineWasInvoked }
    else
      match activateChatWithAdvisor w1 chat with
      | Except.ok w2 =>
          { w := w2, engineInvoked := engineWasInvoked, escalated := true }
      | Except.error _ =>
          { w := w1, thrown := true, engineInvoked := engineWasInvoked }

/-- The sentinel / reply dispatch of `chat.service.ts` lines 159-167, run on
the engine's returned text: the escalation branch is chosen exactly when the
text equals `advisorSentinel` by string comparison; any other truthy text is
sent back to the contact. -/
def routerDispatch (w : World) (chat : Chat) (o : RouterOracle)
    (responseText : String) : BodyOut :=
  if responseText == advisorSentinel then
    if o.typingFails then routerInnerCatch w chat o true
    else if o.schedFails then routerInnerCatch w chat o true
    else
      match activateChatWithAdvisor w chat with
      | Except.ok w1 => { w := w1, engineInvoked := true, escalated := true }
      | Except.error _ => routerInnerCatch w chat o true
  else if responseText ≠ "" then
    if o.typingFails then routerInnerCatch w chat o true
    else if o.sendFails then routerInnerCatch w chat o true
    else
      { w := addSentBotW w chat.contactNumber responseText
        engineInvoked := true, replied := some responseText }
  else
    { w := w, engineInvoked := true }

/-- The `try` body of `handleIncomingMessage` (`chat.service.ts` 109-175). -/
def routerTryBody (w : World) (msg : SimplifiedMessage) (contactNumber : String)
    (o : RouterOracle) : BodyOut :=
  if o.findChatFails then { w := w, thrown := true }
  else
    let chatFound := findChatByContact w contactNumber
    let chat :=
      match chatFound with
      | some c =>
          if c.status ≠ ChatStatus.ACTIVE ∧ c.status ≠ ChatStatus.PENDING_ASSIGNMENT then
            { c with status := ChatStatus.AUTO_RESPONDER, assignedTo := none }
          else c
      | none =>
          { id := w.nextChatId, contactNumber := contactNumber,
            customerName := none, status := ChatStatus.AUTO_RESPONDER,
            assignedTo := none, unreadCount := 0 }
    let w1 := if chatFound.isNone then { w with nextChatId := w.nextChatId + 1 } else w
    if o.saveChatFails then { w := w1, thrown := true }
    else
      let w2 := saveChatW w1 chat
      if o.saveCustomerFails then { w := w2, thrown := true }
      else
        let w3 := saveCustomerMessageW w2 chat msg
        if !o.whatsappReady then
          if o.sysMsgFails then { w := w3, thrown := true }
          else
            let w4 := addSysMsgW w3 chat.id
              "Mensaje recibido sin conexión de WhatsApp. Asignando a asesor."
            let chatP := { chat with status := ChatStatus.PENDING_ASSIGNMENT }
            let w5 := saveChatW w4 chatP
            if o.schedFails then { w := w5, thrown := true }
            else
              match autoAssignChat w5 chatP with
              | Except.ok w6 => { w := w6 }
              | Except.error _ => { w := w5, thrown := true }
        else if chat.status == ChatStatus.ACTIVE || chat.status == ChatStatus.PENDING_ASSIGNMENT then
          { w := w3 }
        else if chat.status == ChatStatus.AUTO_RESPONDER && !msg.hasMedia then
          let w4 := startAutoResponderTimerW w3 chat.id
          if o.flowFails then routerInnerCatch w4 chat o false
          else
            let r := getUserStateW w4 chat.contactNumber
            let fr := flowHandleIncomingMessage chat r.1 msg.body o.hour o.db
            let w5 := applyFlowEffects r.2 chat fr
            routerDispatch w5 chat o fr.message
        else
          { w := w3 }

/-- The full observable outcome of one router invocation. -/
structure RouterTrace where
  w : World
  dropped : Bool := false
  lockWasAcquired : Bool := false
  releaseInvoked : Bool := false
  engineInvoked : Bool := false
  escalated : Bool := false
  repliedText : Option String := none
  errorCaught : Bool := false
  deriving DecidableEq, Repr

/-- `ChatService.handleIncomingMessage(message)`: derive the contact from
the JID, try-acquire the per-contact lease (dropping the message on
failure), run the body under try/catch, and release the lease in the
`finally` clause on every exit of the body. -/
def handleIncomingMessageR (w : World) (msg : SimplifiedMessage)
    (o : RouterOracle) : RouterTrace :=
  let contactNumber := jsBeforeAt msg.fromJid
  let lockKey := "chat:processing:" ++ contactNumber
  let acq := acquireLockW w lockKey o.redisDown
  if !acq.1 then
    { w := acq.2, dropped := true }
  else
    let b := routerTryBody acq.2 msg contactNumber o
    { w := releaseLockW b.w lockKey
      lockWasAcquired := true
      releaseInvoked := true
      engineInvoked := b.engineInvoked
      escalated := b.escalated
      repliedText := b.replied
      errorCaught := b.thrown }

/-! ## Wait-queue runs (for the FIFO claim)

`redisRunQueue` is the queue exactly as the store keeps it (`lPush` to
enqueue, `rPop` to dequeue).  `fifoRunQueue` is the specification queue in
the spec's words: insertion order preserved, first-in-first-out — enqueue
appends at the tail, dequeue takes the head.  The refinement theorem for C8
relates the two. -/

/-- One wait-queue operation. -/
inductive QueueOp
  | enq (chatId : Nat)
  | deq
  deriving DecidableEq, Repr

/-- Runs operations against the Redis list (`addChatToWaitingQueue` /
`getNextChatInQueue`); returns the dequeued ids in order plus the final
list. -/
def redisRunQueue : List QueueOp → List Nat → List Nat × List Nat
  | [], q => ([], q)
  | QueueOp.enq x :: ops, q => redisRunQueue ops (lPush q x)
  | QueueOp.deq :: ops, q =>
      let r := rPop q
      let rest := redisRunQueue ops r.2
      (r.1.toList ++ rest.1, rest.2)

/-- Modelled from the spec: `WaitQueueEntry: chat id; insertion order
preserved, first-in-first-out` — the textbook FIFO queue, enqueue at the
tail, dequeue from the head.  Used only as the refinement target of C8. -/
def fifoRunQueue : List QueueOp → List Nat → List Nat × List Nat
  | [], q => ([], q)
  | QueueOp.enq x :: ops, q => fifoRunQueue ops (q ++ [x])
  | QueueOp.deq :: ops, q =>
      let rest := fifoRunQueue ops q.tail
      (q.head?.toList ++ rest.1, rest.2)

/-! ## The chat-record invariant of the spec's data model -/

/-- The spec's invariant on a persisted chat record:
`status=ACTIVE ⇒ assignedAgent ≠ null` and
`status ∈ {AUTO_RESPONDER, PENDING_ASSIGNMENT} ⇒ assignedAgent = null`. -/
def chatInvariant (c : Chat) : Prop :=
  (c.status = ChatStatus.ACTIVE → c.assignedTo ≠ none) ∧
    (c.status = ChatStatus.AUTO_RESPONDER ∨ c.status = ChatStatus.PENDING_ASSIGNMENT →
      c.assignedTo = none)

instance (c : Chat) : Decidable (chatInvariant c) := by
  unfold chatInvariant
  infer_instance

/-! ## Concrete fixtures used by counterexamples and witnesses -/

/-- A bot-handled chat as created on first contact. -/
def exampleChat : Chat :=
  { id := 7, contactNumber := "593991", status := ChatStatus.AUTO_RESPONDER }

/-- A dialogue state sitting in the main menu. -/
def stateMainMenu : UserState :=
  { step := ConversationStep.MAIN_MENU, termsAccepted := some false, isFallback := some false }

/-- A dialogue state waiting for the customer's name. -/
def stateAskName : UserState :=
  { step := ConversationStep.ASK_FOR_NAME, termsAccepted := some false, isFallback := some false }

/-- A dialogue state inside the exit survey. -/
def stateSurvey : UserState :=
  { step := ConversationStep.SURVEY, termsAccepted := some false, isFallback := some false }

/-- A world holding `exampleChat` with its contact in the main menu. -/
def exampleWorld : World :=
  { chats := [exampleChat]
    userStates := [(stateKey "593991", serializeState stateMainMenu)] }

/-- The inbound message `2` (the advisor option) from that contact. -/
def exampleMsg2 : SimplifiedMessage :=
  { fromJid := "593991@s.whatsapp.net", body := "2" }

/-- A connected agent's user row. -/
def agentUser : UserWha := { id := 3, role := "agent", firstName := "Ana" }

/-- The same agent in the Presence Registry. -/
def agentPres : AgentPresence := { id := 3, role := "agent", firstName := "Ana" }

/-- A world where `exampleChat` is ACTIVE and assigned to agent 3, with no
agent connected (for the response-timeout scenario). -/
def reassignWorld : World :=
  { chats := [{ exampleChat with status := ChatStatus.ACTIVE, assignedTo := some 3 }]
    users := [agentUser] }

/-- A world with `exampleChat` waiting in the queue and agent 3 known to the
user table but not yet connected (for the agent-connect scenario). -/
def queueWorld : World :=
  { chats := [{ exampleChat with status := ChatStatus.PENDING_ASSIGNMENT }]
    users := [agentUser]
    queue := [7] }

/-- A world holding only `exampleChat`, nobody connected. -/
def loneChatWorld : World := { chats := [exampleChat] }

/-- The world after auto-assigning `exampleChat` in `loneChatWorld`
(no agent connected, so the queue branch runs). -/
def autoAssignedWorld : World :=
  match autoAssignChat loneChatWorld exampleChat with
  | Except.ok w => w
  | Except.error _ => loneChatWorld

/-- The world after agent 3 connects to `queueWorld`. -/
def connectedWorld : World :=
  match onAgentConnected queueWorld "s1" agentPres with
  | Except.ok w => w
  | Except.error _ => queueWorld

/-- The world after escalating `exampleChat` in `loneChatWorld`. -/
def escalatedLoneWorld : World :=
  match activateChatWithAdvisor loneChatWorld exampleChat with
  | Except.ok w => w
  | Except.error _ => loneChatWorld

/-- The world after escalating `exampleChat` in `exampleWorld`. -/
def escalatedExampleWorld : World :=
  match activateChatWithAdvisor exampleWorld exampleChat with
  | Except.ok w => w
  | Except.error _ => exampleWorld

/-- A world where agent 3 is connected and known, `exampleChat` unassigned. -/
def assignWorld : World :=
  { chats := [exampleChat], users := [agentUser], presence := [("s1", agentPres)] }

/-- The world after auto-assigning chat 7 to agent 3 in `assignWorld`. -/
def assignedWorld : World :=
  match assignChat assignWorld 7 3 true with
  | Except.ok w => w
  | Except.error _ => assignWorld

/-- The world after the response timer for (chat 7, agent 3) fires in
`reassignWorld` (no other agent connected). -/
def reassignedWorld : World :=
  match reassignUnansweredChat reassignWorld 7 3 with
  | Except.ok w => w
  | Except.error _ => reassignWorld

/-! ## Helper lemmas -/

theorem kvGet_kvSet_self (kv : List (String × StoredState)) (k : String) (v : StoredState) :
    kvGet (kvSet kv k v) k = some v := by
  induction kv with
  | nil => simp [kvSet, kvGet]
  | cons p rest ih =>
      obtain ⟨k0, v0⟩ := p
      by_cases h : k0 = k
      · simp [kvSet, kvGet, h]
      · simp [kvSet, kvGet, h, ih]

theorem merge_serialize_default :
    mergeWithDefault getDefaultState (serializeState getDefaultState) = getDefaultState := by
  decide

/-! ## C7 -/

/-- C7: calling `getUserState` twice for a fresh contact (no stored state)
returns the identical default state (step = START, termsAccepted = false)
both times: the first call writes the default back and returns it, the
second call reads it back and returns an equal state (and writes nothing
further). -/
theorem getUserState_fresh_idempotent (w : World) (contact : String)
    (h : kvGet w.userStates (stateKey contact) = none) :
    (getUserStateW w contact).1 = getDefaultState ∧
    (getUserStateW (getUserStateW w contact).2 contact).1 = getDefaultState ∧
    (getUserStateW (getUserStateW w contact).2 contact).2 = (getUserStateW w contact).2 := by
  have h1 : getUserStateW w contact =
      (getDefaultState,
        { w with userStates :=
            kvSet w.userStates (stateKey contact) (serializeState getDefaultState) }) := by
    simp only [getUserStateW, h, getUserStateResult]
  rw [h1]
  refine ⟨rfl, ?_, ?_⟩ <;>
    simp [getUserStateW, kvGet_kvSet_self, getUserStateResult, merge_serialize_default]

theorem getUserState_fresh_idempotent_witness :
    (getUserStateW { } "593991").1 = getDefaultState ∧
    (getUserStateW (getUserStateW { } "593991").2 "593991").1 = getDefaultState ∧
    (getUserStateW (getUserStateW { } "593991").2 "593991").2 =
      (getUserStateW { } "593991").2 :=
  getUserState_fresh_idempotent { } "593991" rfl

/-! ## C9 -/

/-- C9: `getUserState` is total and fail-safe — a throwing store read and an
unparseable stored value are caught and yield the default state, a missing
key yields the default state, and a parsed object is merged over the default
so that every field the default populates (`step`, `termsAccepted`,
`isFallback`) is populated in the result; in particular the engine never
sees a partial state.  Totality is expressed by `getUserStateResult` being a
total function over all four read outcomes. -/
theorem getUserState_total_failsafe (r : RedisRead) :
    (getUserStateResult r).termsAccepted.isSome = true ∧
    (getUserStateResult r).isFallback.isSome = true ∧
    (r = RedisRead.rerr ∨ r = RedisRead.rbad → getUserStateResult r = getDefaultState) ∧
    (r = RedisRead.rmiss → getUserStateResult r = getDefaultState) ∧
    (∀ p, r = RedisRead.rok p →
      (p.step = none → (getUserStateResult r).step = ConversationStep.START) ∧
      (p.termsAccepted = none → (getUserStateResult r).termsAccepted = some false) ∧
      (p.isFallback = none → (getUserStateResult r).isFallback = some false)) := by
  cases r with
  | rerr => simp [getUserStateResult, getDefaultState]
  | rmiss => simp [getUserStateResult, getDefaultState]
  | rbad => simp [getUserStateResult, getDefaultState]
  | rok p =>
      refine ⟨?_, ?_, by simp, by simp, ?_⟩
      · cases hp : p.termsAccepted <;>
          simp [getUserStateResult, mergeWithDefault, getDefaultState, hp]
      · cases hp : p.isFallback <;>
          simp [getUserStateResult, mergeWithDefault, getDefaultState, hp]
      · intro q hq
        cases hq
        refine ⟨?_, ?_, ?_⟩ <;> intro hnone <;>
          simp [getUserStateResult, mergeWithDefault, getDefaultState, hnone]

theorem getUserState_total_failsafe_witness :
    getUserStateResult RedisRead.rerr = getDefaultState ∧
    (getUserStateResult (RedisRead.rok { })).termsAccepted = some false :=
  ⟨(getUserState_total_failsafe RedisRead.rerr).2.2.1 (Or.inl rfl),
    ((getUserState_total_failsafe (RedisRead.rok { })).2.2.2.2 { } rfl).2.1 rfl⟩

/-! ## C8 -/

theorem find_updateChatList (l : List Chat) (c : Chat) (k : Nat) (hk : c.id = k) :
    (updateChatList l c).find? (fun x => x.id == k) = some c := by
  subst hk
  induction l with
  | nil => simp [updateChatList]
  | cons c0 rest ih =>
      by_cases h : c0.id = c.id
      · simp [updateChatList, h]
      · simp [updateChatList, h, List.find?, ih]

theorem assignChat_ok_post (w : World) (chatId agentId : Nat) (isAuto : Bool)
    (w' : World) (h : assignChat w chatId agentId isAuto = Except.ok w') :
    (findChatById w' chatId).map (fun ch => (ch.status, ch.assignedTo)) =
      some (ChatStatus.ACTIVE, some agentId) ∧
    w'.queue = w.queue ∧
    (chatId, agentId) ∈ w'.respTimers ∧
    w'.sentBot = w.sentBot := by
  simp only [assignChat] at h
  split at h
  · exact absurd h (by simp)
  · rename_i chat hc
    split at h
    · exact absurd h (by simp)
    · rename_i agent hu
      split at h
      · exact absurd h (by simp)
      · injection h with hw
        subst hw
        have hid : chat.id = chatId := by
          simpa using List.find?_some hc
        refine ⟨?_, rfl, ?_, rfl⟩
        · simp only [findChatById, startAgentResponseTimerW, addSysMsgW, saveChatW]
          rw [find_updateChatList w.chats
            ({ chat with assignedTo := some agentId, status := ChatStatus.ACTIVE })
            chatId hid]
          rfl
        · simp [startAgentResponseTimerW, addSysMsgW, saveChatW, hid]

/-- C8: the Wait Queue is first-in-first-out.  (i) Runs of
`addChatToWaitingQueue` / `getNextChatInQueue` against the Redis list
(`lPush` / `rPop`) produce exactly the outputs of the textbook FIFO queue on
the reversed list, so ids are dequeued in insertion order.  (ii) `autoAssign`
with zero connected agents of role `agent` persists PENDING_ASSIGNMENT and
places the chat id at the tail of the FIFO order.  (iii) When an agent
connects, exactly the head (oldest) queued id is dequeued and that chat is
assigned to the agent, with a response timer started. -/
theorem waitQueue_fifo :
    (∀ (ops : List QueueOp) (q : List Nat),
      (redisRunQueue ops q).1 = (fifoRunQueue ops q.reverse).1 ∧
      (redisRunQueue ops q).2.reverse = (fifoRunQueue ops q.reverse).2) ∧
    (∀ (w : World) (chat : Chat),
      ((getConnectedAgents w).filter (fun u => u.role == "agent")) = [] →
      ∀ w', autoAssignChat w chat = Except.ok w' →
        w'.queue = lPush w.queue chat.id ∧
        w'.queue.reverse = w.queue.reverse ++ [chat.id] ∧
        findChatById w' chat.id =
          some { chat with status := ChatStatus.PENDING_ASSIGNMENT } ∧
        w'.savedChats =
          w.savedChats ++ [{ chat with status := ChatStatus.PENDING_ASSIGNMENT }]) ∧
    (∀ (w : World) (sock : String) (agent : AgentPresence) (qs : List Nat) (c : Nat),
      agent.role = "agent" → w.queue = qs ++ [c] →
      ∀ w', onAgentConnected w sock agent = Except.ok w' →
        w'.queue = qs ∧
        (findChatById w' c).map (fun ch => (ch.status, ch.assignedTo)) =
          some (ChatStatus.ACTIVE, some agent.id) ∧
        (c, agent.id) ∈ w'.respTimers) := by
  refine ⟨?_, ?_, ?_⟩
  · intro ops
    induction ops with
    | nil => intro q; exact ⟨rfl, by simp [redisRunQueue, fifoRunQueue]⟩
    | cons op rest ih =>
        intro q
        cases op with
        | enq x =>
            have h := ih (lPush q x)
            constructor
            · simpa [redisRunQueue, fifoRunQueue, lPush] using h.1
            · simpa [redisRunQueue, fifoRunQueue, lPush] using h.2
        | deq =>
            have h := ih q.dropLast
            constructor
            · simp only [redisRunQueue, fifoRunQueue, rPop]
              rw [List.head?_reverse, List.tail_reverse, h.1]
            · simp only [redisRunQueue, fifoRunQueue, rPop]
              rw [List.tail_reverse, h.2]
  · intro w chat hfilter w' hok
    simp only [autoAssignChat, hfilter, List.map_nil, List.isEmpty_nil, if_true] at hok
    injection hok with hw
    subst hw
    refine ⟨rfl, by simp [addSysMsgW, saveChatW, lPush], ?_,
      by simp [addSysMsgW, saveChatW]⟩
    simp only [findChatById, addSysMsgW, saveChatW]
    rw [find_updateChatList w.chats
      ({ chat with status := ChatStatus.PENDING_ASSIGNMENT }) chat.id rfl]
  · intro w sock agent qs c hrole hq w' hok
    simp [onAgentConnected, hrole, rPop, hq] at hok
    have post := assignChat_ok_post _ _ _ _ _ hok
    exact ⟨post.2.1, post.1, post.2.2.1⟩

theorem waitQueue_fifo_witness :
    ((redisRunQueue [QueueOp.enq 1, QueueOp.enq 2, QueueOp.deq] []).1 =
      (fifoRunQueue [QueueOp.enq 1, QueueOp.enq 2, QueueOp.deq]
        (List.reverse [])).1) ∧
    autoAssignedWorld.queue = [7] ∧
    connectedWorld.queue = [] ∧
    (findChatById connectedWorld 7).map (fun ch => (ch.status, ch.assignedTo)) =
      some (ChatStatus.ACTIVE, some 3) :=
  ⟨(waitQueue_fifo.1 [QueueOp.enq 1, QueueOp.enq 2, QueueOp.deq] []).1,
    (waitQueue_fifo.2.1 loneChatWorld exampleChat rfl autoAssignedWorld rfl).1,
    (waitQueue_fifo.2.2 queueWorld "s1" agentPres [] 7 rfl rfl connectedWorld rfl).1,
    (waitQueue_fifo.2.2 queueWorld "s1" agentPres [] 7 rfl rfl connectedWorld
      rfl).2.1⟩

/-! ## C5 and C6: shared engine lemma -/

theorem exit_none_of_not_mem (hour : Nat) (lower : String) (us : UserState) (chat : Chat)
    (hexit : lower ∉ exitCommands) :
    handleExitCommands hour lower us chat = none := by
  unfold handleExitCommands
  rw [if_pos hexit]

/-! ## C5 -/

/-- C5 counterexample: in ASK_FOR_NAME the input `0` contains a digit and is
shorter than 3 characters, yet the engine does not reject it with the
re-prompt and the step does not stay ASK_FOR_NAME — `0` is a global exit
command, handled before the step logic, and moves the dialogue to MAIN_MENU. -/
theorem askForName_zero_counterexample :
    (jsLen (jsTrim "0") < 3 ∧ hasDigit (jsTrim "0") = true) ∧
    (flowHandleIncomingMessage exampleChat stateAskName "0" 9 { }).message ≠
      nameRejectMessage ∧
    (flowHandleIncomingMessage exampleChat stateAskName "0" 9 { }).userState.map
      UserState.step = some ConversationStep.MAIN_MENU ∧
    ConversationStep.MAIN_MENU ≠ stateAskName.step := by
  decide

/-- C5 (amended): in ASK_FOR_NAME, every input that is not a global exit
command and that contains a digit or is shorter than 3 characters is
rejected: the engine returns the re-prompt, writes the dialogue state back
unchanged, and persists no name. -/
theorem askForName_rejects_digits_and_short (chat : Chat) (us : UserState)
    (rawText : String) (hour : Nat) (db : FlowDb)
    (hstep : us.step = ConversationStep.ASK_FOR_NAME)
    (hexit : jsToLower (jsTrim rawText) ∉ exitCommands)
    (hbad : jsLen (jsTrim rawText) < 3 ∨ hasDigit (jsTrim rawText) = true) :
    (flowHandleIncomingMessage chat us rawText hour db).message = nameRejectMessage ∧
    (flowHandleIncomingMessage chat us rawText hour db).userState = some us ∧
    (flowHandleIncomingMessage chat us rawText hour db).savedCustomerName = none ∧
    (flowHandleIncomingMessage chat us rawText hour db).surveySaved = none := by
  have hex := exit_none_of_not_mem hour (jsToLower (jsTrim rawText)) us chat hexit
  simp only [flowHandleIncomingMessage, hex, hstep]
  simp only [processConversationStep, hstep]
  simp only [handleNameStep]
  rw [if_pos hbad]
  simp

theorem askForName_rejects_witness :
    (flowHandleIncomingMessage exampleChat stateAskName "Juan1" 9 { }).message =
      nameRejectMessage ∧
    (flowHandleIncomingMessage exampleChat stateAskName "Juan1" 9 { }).userState =
      some stateAskName ∧
    (flowHandleIncomingMessage exampleChat stateAskName "Juan1" 9 { }).savedCustomerName =
      none ∧
    (flowHandleIncomingMessage exampleChat stateAskName "Juan1" 9 { }).surveySaved =
      none :=
  askForName_rejects_digits_and_short exampleChat stateAskName "Juan1" 9 { }
    rfl (by decide) (by decide)

/-! ## C6 -/

/-- C6 counterexample: in SURVEY the input `salir` does not end the session
with the state reset to the default — the global exit handling runs first,
returns the survey question again and leaves the step at SURVEY; and the
unmatched input `gracias` is not stored as a free-text comment — no survey
row is persisted at all (the classified `comment` local is discarded). -/
theorem survey_counterexample :
    (flowHandleIncomingMessage exampleChat stateSurvey "salir" 9 { }).resetState =
      false ∧
    (flowHandleIncomingMessage exampleChat stateSurvey "salir" 9 { }).userState.map
      UserState.step = some ConversationStep.SURVEY ∧
    (flowHandleIncomingMessage exampleChat stateSurvey "salir" 9 { }).surveySaved =
      none ∧
    (flowHandleIncomingMessage exampleChat stateSurvey "gracias" 9 { }).surveySaved =
      none ∧
    (flowHandleIncomingMessage exampleChat stateSurvey "gracias" 9 { }).resetState =
      true := by
  decide

/-- C6 (amended): in SURVEY, for every input that is not a global exit
command: the input is classified by substring match with priority 1/mala,
then 2/regular, then 3/excelente, and a matching input persists exactly that
rating (with a null comment); an unmatched input persists nothing — the
free-text comment is discarded, not stored; in both cases the session ends
with the contact's DialogueState reset to the default (step = START). -/
theorem survey_classifies_and_resets (chat : Chat) (us : UserState)
    (rawText : String) (hour : Nat) (db : FlowDb)
    (hstep : us.step = ConversationStep.SURVEY)
    (hexit : jsToLower (jsTrim rawText) ∉ exitCommands) :
    (flowHandleIncomingMessage chat us rawText hour db).resetState = true ∧
    (flowHandleIncomingMessage chat us rawText hour db).userState = none ∧
    ((jsIncludes (jsToLower (jsTrim (jsTrim rawText))) "1" = true ∨
      jsIncludes (jsToLower (jsTrim (jsTrim rawText))) "mala" = true) →
      (flowHandleIncomingMessage chat us rawText hour db).surveySaved =
        some { chatId := chat.id, rating := SurveyRating.MALA, comment := none }) ∧
    (¬(jsIncludes (jsToLower (jsTrim (jsTrim rawText))) "1" = true ∨
        jsIncludes (jsToLower (jsTrim (jsTrim rawText))) "mala" = true) →
      (jsIncludes (jsToLower (jsTrim (jsTrim rawText))) "2" = true ∨
        jsIncludes (jsToLower (jsTrim (jsTrim rawText))) "regular" = true) →
      (flowHandleIncomingMessage chat us rawText hour db).surveySaved =
        some { chatId := chat.id, rating := SurveyRating.REGULAR, comment := none }) ∧
    (¬(jsIncludes (jsToLower (jsTrim (jsTrim rawText))) "1" = true ∨
        jsIncludes (jsToLower (jsTrim (jsTrim rawText))) "mala" = true) →
      ¬(jsIncludes (jsToLower (jsTrim (jsTrim rawText))) "2" = true ∨
        jsIncludes (jsToLower (jsTrim (jsTrim rawText))) "regular" = true) →
      (jsIncludes (jsToLower (jsTrim (jsTrim rawText))) "3" = true ∨
        jsIncludes (jsToLower (jsTrim (jsTrim rawText))) "excelente" = true) →
      (flowHandleIncomingMessage chat us rawText hour db).surveySaved =
        some { chatId := chat.id, rating := SurveyRating.EXCELENTE, comment := none }) ∧
    (¬(jsIncludes (jsToLower (jsTrim (jsTrim rawText))) "1" = true ∨
        jsIncludes (jsToLower (jsTrim (jsTrim rawText))) "mala" = true) →
      ¬(jsIncludes (jsToLower (jsTrim (jsTrim rawText))) "2" = true ∨
        jsIncludes (jsToLower (jsTrim (jsTrim rawText))) "regular" = true) →
      ¬(jsIncludes (jsToLower (jsTrim (jsTrim rawText))) "3" = true ∨
        jsIncludes (jsToLower (jsTrim (jsTrim rawText))) "excelente" = true) →
      (flowHandleIncomingMessage chat us rawText hour db).surveySaved = none) := by
  have hex := exit_none_of_not_mem hour (jsToLower (jsTrim rawText)) us chat hexit
  simp only [flowHandleIncomingMessage, hex, hstep]
  simp only [handleSurvey]
  refine ⟨by simp, by simp, ?_, ?_, ?_, ?_⟩
  · intro h1
    rw [if_pos h1]
    simp
  · intro hn1 h2
    rw [if_neg hn1, if_pos h2]
    simp
  · intro hn1 hn2 h3
    rw [if_neg hn1, if_neg hn2, if_pos h3]
    simp
  · intro hn1 hn2 hn3
    rw [if_neg hn1, if_neg hn2, if_neg hn3]
    simp

theorem survey_classifies_witness :
    (flowHandleIncomingMessage exampleChat stateSurvey "3" 9 { }).resetState = true ∧
    (flowHandleIncomingMessage exampleChat stateSurvey "3" 9 { }).surveySaved =
      some { chatId := exampleChat.id, rating := SurveyRating.EXCELENTE, comment := none } :=
  ⟨(survey_classifies_and_resets exampleChat stateSurvey "3" 9 { } rfl (by decide)).1,
    (survey_classifies_and_resets exampleChat stateSurvey "3" 9 { } rfl
      (by decide)).2.2.2.2.1 (by decide) (by decide) (by decide)⟩

theorem assignChat_saved_mono (w : World) (chatId agentId : Nat) (isAuto : Bool)
    (w' : World) (h : assignChat w chatId agentId isAuto = Except.ok w') :
    ∀ c ∈ w.savedChats, c ∈ w'.savedChats := by
  simp only [assignChat] at h
  split at h
  · exact absurd h (by simp)
  · split at h
    · exact absurd h (by simp)
    · split at h
      · exact absurd h (by simp)
      · injection h with hw
        subst hw
        intro c hc
        simp [startAgentResponseTimerW, addSysMsgW, saveChatW, hc]

theorem assignChat_saved_invariant (w : World) (chatId agentId : Nat) (isAuto : Bool)
    (w' : World) (h : assignChat w chatId agentId isAuto = Except.ok w') :
    ∀ c ∈ w'.savedChats, c ∈ w.savedChats ∨ chatInvariant c := by
  simp only [assignChat] at h
  split at h
  · exact absurd h (by simp)
  · split at h
    · exact absurd h (by simp)
    · split at h
      · exact absurd h (by simp)
      · injection h with hw
        subst hw
        intro c hc
        simp only [startAgentResponseTimerW, addSysMsgW, saveChatW,
          List.mem_append, List.mem_singleton] at hc
        cases hc with
        | inl hmem => exact Or.inl hmem
        | inr heq => exact Or.inr (by subst heq; simp [chatInvariant])

theorem getUserStateW_savedChats (w : World) (cn : String) :
    (getUserStateW w cn).2.savedChats = w.savedChats := by
  unfold getUserStateW
  rcases hkv : kvGet w.userStates (stateKey cn) with _ | p <;> simp [hkv]

theorem releaseChat_saved_invariant (w : World) (chatId : Nat) (sendSurvey : Bool)
    (w' : World) (h : releaseChat w chatId sendSurvey = Except.ok w') :
    ∀ c ∈ w'.savedChats, c ∈ w.savedChats ∨ chatInvariant c := by
  simp only [releaseChat] at h
  split at h
  · exact absurd h (by simp)
  · split at h <;>
    · injection h with hw
      subst hw
      intro c hc
      simp only [setUserStateW, getUserStateW_savedChats, addSentBotW,
        cancelAgentResponseTimerW, addSysMsgW, saveChatW,
        List.mem_append, List.mem_singleton] at hc
      cases hc with
      | inl hmem => exact Or.inl hmem
      | inr heq => exact Or.inr (by subst heq; simp [chatInvariant])

theorem autoAssign_saved_invariant (w : World) (chat : Chat) (w' : World)
    (hassign : chat.assignedTo = none)
    (h : autoAssignChat w chat = Except.ok w') :
    ∀ c ∈ w'.savedChats, c ∈ w.savedChats ∨ chatInvariant c := by
  simp only [autoAssignChat] at h
  split at h
  · injection h with hw
    subst hw
    intro c hc
    simp only [addSysMsgW, saveChatW, List.mem_append, List.mem_singleton] at hc
    cases hc with
    | inl hmem => exact Or.inl hmem
    | inr heq => exact Or.inr (by subst heq; simp [chatInvariant, hassign])
  · split at h
    · exact assignChat_saved_invariant _ _ _ _ _ h
    · injection h with hw
      subst hw
      intro c hc
      exact Or.inl hc

theorem autoAssign_saved_mono (w : World) (chat : Chat) (w' : World)
    (h : autoAssignChat w chat = Except.ok w') :
    ∀ c ∈ w.savedChats, c ∈ w'.savedChats := by
  simp only [autoAssignChat] at h
  split at h
  · injection h with hw
    subst hw
    intro c hc
    simp [addSysMsgW, saveChatW, hc]
  · split at h
    · exact assignChat_saved_mono _ _ _ _ _ h
    · injection h with hw
      subst hw
      intro c hc
      exact hc

theorem activate_persists_active_unassigned (w : World) (chat : Chat) (w' : World)
    (hassign : chat.assignedTo = none)
    (h : activateChatWithAdvisor w chat = Except.ok w') :
    ({ chat with status := ChatStatus.ACTIVE } : Chat) ∈ w'.savedChats ∧
    ¬ chatInvariant ({ chat with status := ChatStatus.ACTIVE } : Chat) := by
  simp only [activateChatWithAdvisor] at h
  constructor
  · refine autoAssign_saved_mono _ _ _ h _ ?_
    simp [addSysMsgW, addSentBotW, saveChatW]
  · simp [chatInvariant, hassign]

theorem pickFewest_mem (w : World) (l : List UserWha) (u : UserWha)
    (h : pickFewest w l = some u) : u ∈ l := by
  induction l with
  | nil => simp [pickFewest] at h
  | cons a rest ih =>
      simp only [pickFewest] at h
      cases hp : pickFewest w rest with
      | none =>
          simp only [hp] at h
          injection h with h
          subst h
          exact List.mem_cons_self _ _
      | some b =>
          simp only [hp] at h
          by_cases hlt : countActiveChats w b.id < countActiveChats w a.id
          · rw [if_pos hlt] at h
            injection h with h
            subst h
            exact List.mem_cons_of_mem _ (ih hp)
          · rw [if_neg hlt] at h
            injection h with h
            subst h
            exact List.mem_cons_self _ _

theorem findAgent_excludes (w : World) (ids : List Nat) (ex b : Nat)
    (hex : ex ≠ 0) (h : findAgentWithFewerChats w ids ex = some b) : b ≠ ex := by
  unfold findAgentWithFewerChats at h
  split at h
  · exact absurd h (by simp)
  · cases hp : pickFewest w (w.users.filter (fun u =>
        u.role == "agent" && ids.contains u.id && (ex == 0 || u.id != ex))) with
    | none => rw [hp] at h; simp at h
    | some u =>
        rw [hp] at h
        simp only [Option.map_some'] at h
        have hu := pickFewest_mem _ _ _ hp
        have hpred := (List.mem_filter.mp hu).2
        simp only [Bool.and_eq_true, Bool.or_eq_true] at hpred
        rcases hpred with ⟨⟨_, _⟩, hor⟩
        cases hor with
        | inl h0 => exact absurd (by simpa using h0) hex
        | inr hne =>
            injection h with h
            subst h
            simpa using hne

theorem releaseChat_noSurvey_post (w : World) (chatId : Nat) (w' : World)
    (h : releaseChat w chatId false = Except.ok w') :
    (findChatById w' chatId).map (fun ch => (ch.status, ch.assignedTo)) =
      some (ChatStatus.AUTO_RESPONDER, none) ∧
    w'.sentBot = w.sentBot ∧
    w'.userStates = w.userStates ∧
    w'.surveysDb = w.surveysDb := by
  simp only [releaseChat] at h
  split at h
  · exact absurd h (by simp)
  · rename_i chat hc
    simp only [Bool.false_eq_true, if_false] at h
    injection h with hw
    subst hw
    have hid : chat.id = chatId := by
      simpa using List.find?_some hc
    refine ⟨?_, rfl, rfl, rfl⟩
    simp only [findChatById, addSysMsgW, saveChatW, cancelAgentResponseTimerW]
    rw [find_updateChatList _
      ({ chat with status := ChatStatus.AUTO_RESPONDER, assignedTo := none }) chatId hid]
    rfl

/-- C2 (amended): manual/auto assignment persists only states satisfying the
invariant (ACTIVE with a non-null assignee), release persists only
AUTO_RESPONDER with a null assignee, and auto-assignment of an unassigned
chat persists only invariant-satisfying states; but the escalation step
(`activateChatWithAdvisor`) first persists `status = ACTIVE` with
`assignedTo` left null, so the invariant does not hold at every persisted
state — it fails exactly at the escalation write. -/
theorem chat_status_assignment_invariant :
    (∀ (w : World) (chatId agentId : Nat) (isAuto : Bool) (w' : World),
      assignChat w chatId agentId isAuto = Except.ok w' →
      ∀ c ∈ w'.savedChats, c ∈ w.savedChats ∨ chatInvariant c) ∧
    (∀ (w : World) (chatId : Nat) (sendSurvey : Bool) (w' : World),
      releaseChat w chatId sendSurvey = Except.ok w' →
      ∀ c ∈ w'.savedChats, c ∈ w.savedChats ∨ chatInvariant c) ∧
    (∀ (w : World) (chat : Chat) (w' : World), chat.assignedTo = none →
      autoAssignChat w chat = Except.ok w' →
      ∀ c ∈ w'.savedChats, c ∈ w.savedChats ∨ chatInvariant c) ∧
    (∀ (w : World) (chat : Chat) (w' : World), chat.assignedTo = none →
      activateChatWithAdvisor w chat = Except.ok w' →
      ({ chat with status := ChatStatus.ACTIVE } : Chat) ∈ w'.savedChats ∧
      ¬ chatInvariant ({ chat with status := ChatStatus.ACTIVE } : Chat)) :=
  ⟨assignChat_saved_invariant, releaseChat_saved_invariant,
    fun w chat w' ha h => autoAssign_saved_invariant w chat w' ha h,
    fun w chat w' ha h => activate_persists_active_unassigned w chat w' ha h⟩

/-- C2 counterexample: escalating a fresh auto-responder chat persists the
state (ACTIVE, assignedAgent = null) — `activateChatWithAdvisor` sets
`status = ACTIVE` without touching `assignedTo` and saves, violating
`status=ACTIVE ⇒ assignedAgent ≠ null` at a persisted state. -/
theorem chat_invariant_counterexample :
    activateChatWithAdvisor loneChatWorld exampleChat = Except.ok escalatedLoneWorld ∧
    escalatedLoneWorld.savedChats.map (fun c => (c.status, c.assignedTo)) =
      [(ChatStatus.ACTIVE, none), (ChatStatus.PENDING_ASSIGNMENT, none)] ∧
    ¬ chatInvariant { exampleChat with status := ChatStatus.ACTIVE } :=
  ⟨rfl, by decide, by decide⟩

theorem chat_status_assignment_invariant_witness :
    (({ exampleChat with assignedTo := some 3, status := ChatStatus.ACTIVE } : Chat) ∈
      assignWorld.savedChats ∨
      chatInvariant { exampleChat with assignedTo := some 3, status := ChatStatus.ACTIVE }) ∧
    (({ exampleChat with status := ChatStatus.ACTIVE } : Chat) ∈
      escalatedLoneWorld.savedChats ∧
      ¬ chatInvariant ({ exampleChat with status := ChatStatus.ACTIVE } : Chat)) :=
  ⟨chat_status_assignment_invariant.1 assignWorld 7 3 true assignedWorld rfl _ (by decide),
    chat_status_assignment_invariant.2.2.2 loneChatWorld exampleChat escalatedLoneWorld
      rfl rfl⟩

/-- C4: the response-timer callback (i) does nothing when the chat no longer
exists, (ii) does nothing when the chat is not ACTIVE or not assigned to the
timer's agent (stale timer), (iii) the replacement query excludes the
unresponsive agent (for any non-zero agent id — the source guards the SQL
exclusion with JS truthiness of `excludeAgentId`), (iv) with no replacement
available the chat is released back to AUTO_RESPONDER with a null assignee
and no survey prompt or state change is sent, and (v) with a replacement
available the callback is exactly an auto assignment to an agent different
from the unresponsive one. -/
theorem responseTimer_stale_guard_and_fallback :
    (∀ (w : World) (chatId agentId : Nat),
      findChatById w chatId = none →
      reassignUnansweredChat w chatId agentId = Except.ok w) ∧
    (∀ (w : World) (chatId agentId : Nat) (chat : Chat),
      findChatById w chatId = some chat →
      (chat.status ≠ ChatStatus.ACTIVE ∨ chat.assignedTo ≠ some agentId) →
      reassignUnansweredChat w chatId agentId = Except.ok w) ∧
    (∀ (w : World) (ids : List Nat) (ex b : Nat), ex ≠ 0 →
      findAgentWithFewerChats w ids ex = some b → b ≠ ex) ∧
    (∀ (w : World) (chatId agentId : Nat) (chat : Chat),
      findChatById w chatId = some chat →
      chat.status = ChatStatus.ACTIVE → chat.assignedTo = some agentId →
      findAgentWithFewerChats w
        (((getConnectedAgents w).filter (fun u => u.role == "agent")).map (fun a => a.id))
        agentId = none →
      ∀ w', reassignUnansweredChat w chatId agentId = Except.ok w' →
        (findChatById w' chatId).map (fun ch => (ch.status, ch.assignedTo)) =
          some (ChatStatus.AUTO_RESPONDER, none) ∧
        w'.sentBot = w.sentBot ∧ w'.userStates = w.userStates ∧
        w'.surveysDb = w.surveysDb) ∧
    (∀ (w : World) (chatId agentId : Nat) (chat : Chat) (b : Nat),
      agentId ≠ 0 →
      findChatById w chatId = some chat →
      chat.status = ChatStatus.ACTIVE → chat.assignedTo = some agentId →
      findAgentWithFewerChats w
        (((getConnectedAgents w).filter (fun u => u.role == "agent")).map (fun a => a.id))
        agentId = some b →
      b ≠ agentId ∧
      reassignUnansweredChat w chatId agentId = assignChat w chat.id b true) := by
  refine ⟨?_, ?_, ?_, ?_, ?_⟩
  · intro w chatId agentId h
    simp [reassignUnansweredChat, h]
  · intro w chatId agentId chat hc hcond
    simp only [reassignUnansweredChat, hc]
    rw [if_pos hcond]
  · intro w ids ex b hex h
    exact findAgent_excludes w ids ex b hex h
  · intro w chatId agentId chat hc hstatus hassigned hfind w' hok
    have hguard : ¬(chat.status ≠ ChatStatus.ACTIVE ∨ chat.assignedTo ≠ some agentId) := by
      simp [hstatus, hassigned]
    simp only [reassignUnansweredChat, hc] at hok
    rw [if_neg hguard] at hok
    simp only [hfind] at hok
    exact releaseChat_noSurvey_post w chatId w' hok
  · intro w chatId agentId chat b hagent hc hstatus hassigned hfind
    have hguard : ¬(chat.status ≠ ChatStatus.ACTIVE ∨ chat.assignedTo ≠ some agentId) := by
      simp [hstatus, hassigned]
    refine ⟨findAgent_excludes _ _ _ _ hagent hfind, ?_⟩
    simp only [reassignUnansweredChat, hc]
    rw [if_neg hguard]
    simp only [hfind]

theorem responseTimer_witness :
    (findChatById reassignedWorld 7).map (fun ch => (ch.status, ch.assignedTo)) =
      some (ChatStatus.AUTO_RESPONDER, none) ∧
    reassignedWorld.sentBot = reassignWorld.sentBot ∧
    reassignedWorld.userStates = reassignWorld.userStates ∧
    reassignedWorld.surveysDb = reassignWorld.surveysDb :=
  responseTimer_stale_guard_and_fallback.2.2.2.1 reassignWorld 7 3 _ rfl rfl rfl rfl
    reassignedWorld rfl

/-- C1 (amended): every engine invocation yields a plain string, and the
escalation signal is conveyed as the bare sentinel reply
`__ACTIVATE_CHAT_WITH_ADVISOR__`, which the Router recognizes by string
comparison: when the dispatch I/O succeeds it escalates exactly on that
string, and sends any other non-empty reply text back to the contact. -/
theorem escalation_via_sentinel (w : World) (chat : Chat) (o : RouterOracle)
    (text : String) (w' : World)
    (ht : o.typingFails = false) (hs : o.schedFails = false) (hsend : o.sendFails = false)
    (hact : activateChatWithAdvisor w chat = Except.ok w') :
    ((routerDispatch w chat o text).escalated = true ↔ text = advisorSentinel) ∧
    (text ≠ advisorSentinel → text ≠ "" →
      (routerDispatch w chat o text).replied = some text) ∧
    (flowHandleIncomingMessage exampleChat stateMainMenu "2" 9 { }).message =
      advisorSentinel := by
  refine ⟨?_, ?_, by decide⟩
  · by_cases hb : text = advisorSentinel
    · subst hb
      simp [routerDispatch, ht, hs, hact]
    · have hbeq : (text == advisorSentinel) = false := by
        simp [hb]
      by_cases he : text = ""
      · subst he
        simp [routerDispatch, hbeq, hb]
      · simp [routerDispatch, hbeq, ht, hsend, he, hb]
  · intro hne hempty
    have hbeq : (text == advisorSentinel) = false := by simp [hne]
    simp [routerDispatch, hbeq, ht, hsend, hempty]

/-- C1 counterexample: the engine's advisor option in MAIN_MENU returns the
bare magic-marker string `__ACTIVATE_CHAT_WITH_ADVISOR__` as its reply
value, and the Router's dispatch recognizes escalation by comparing the
reply against that string — there is no discriminated result type. -/
theorem sentinel_counterexample :
    (flowHandleIncomingMessage exampleChat stateMainMenu "2" 9 { }).message =
      "__ACTIVATE_CHAT_WITH_ADVISOR__" ∧
    (routerDispatch exampleWorld exampleChat { } "__ACTIVATE_CHAT_WITH_ADVISOR__").escalated =
      true ∧
    (routerDispatch exampleWorld exampleChat { } "hola").escalated = false ∧
    (handleIncomingMessageR exampleWorld exampleMsg2 { }).escalated = true := by
  decide

theorem escalation_via_sentinel_witness :
    (routerDispatch exampleWorld exampleChat { } advisorSentinel).escalated = true ∧
    (routerDispatch exampleWorld exampleChat { } "hola").replied = some "hola" :=
  ⟨(escalation_via_sentinel exampleWorld exampleChat { } advisorSentinel
      escalatedExampleWorld rfl rfl rfl rfl).1.mpr rfl,
    (escalation_via_sentinel exampleWorld exampleChat { } "hola"
      escalatedExampleWorld rfl rfl rfl rfl).2.1 (by decide) (by decide)⟩

theorem contains_filter_ne_false (l : List String) (k : String) :
    (l.filter (fun x => x ≠ k)).contains k = false := by
  induction l with
  | nil => rfl
  | cons a rest ih =>
      by_cases h : a = k
      · simp [List.filter, h, ih]
      · simp [List.filter, h, ih]
        exact fun hk => h hk.symm

/-- C3: for every inbound message, every world and every failure oracle —
i.e. on the success path and on every path where a step between loading the
chat and invoking the Assignment Scheduler throws — whenever the lease was
acquired at entry, the `finally` clause invokes the release and the lease
key is absent from the lock store afterwards; and the message is dropped
exactly when the lease was not acquired. -/
theorem router_releases_lease (w : World) (msg : SimplifiedMessage) (o : RouterOracle) :
    ((handleIncomingMessageR w msg o).lockWasAcquired = true →
      (handleIncomingMessageR w msg o).releaseInvoked = true ∧
      (handleIncomingMessageR w msg o).w.locks.contains
        ("chat:processing:" ++ jsBeforeAt msg.fromJid) = false) ∧
    ((handleIncomingMessageR w msg o).lockWasAcquired = true ↔
      (handleIncomingMessageR w msg o).dropped = false) := by
  cases hb : (acquireLockW w ("chat:processing:" ++ jsBeforeAt msg.fromJid) o.redisDown).1 with
  | false => simp [handleIncomingMessageR, hb]
  | true => simp [handleIncomingMessageR, hb, releaseLockW, contains_filter_ne_false]

theorem router_releases_lease_witness :
    (handleIncomingMessageR exampleWorld exampleMsg2 { }).releaseInvoked = true ∧
    (handleIncomingMessageR exampleWorld exampleMsg2 { }).w.locks.contains
      ("chat:processing:" ++ jsBeforeAt exampleMsg2.fromJid) = false :=
  (router_releases_lease exampleWorld exampleMsg2 { }).1 (by decide)

theorem acquire_true_not_down (w : World) (key : String) (d : Bool)
    (h : (acquireLockW w key d).1 = true) : d = false := by
  cases d
  · rfl
  · simp [acquireLockW, setNXOutcome, acquireLock] at h

/-- C10: lock acquisition is fail-closed — a throwing store operation makes
`acquireLock` return false (both at the store level and for the raw SET-NX
outcome), the Router then drops the message, and the engine is never
invoked unless the lock was actually granted by the store. -/
theorem lock_fail_closed (w : World) (msg : SimplifiedMessage) (o : RouterOracle) :
    (∀ (w0 : World) (key : String), (acquireLockW w0 key true).1 = false) ∧
    acquireLock SetNXOutcome.errNX = false ∧
    ((handleIncomingMessageR w msg o).engineInvoked = true →
      (handleIncomingMessageR w msg o).lockWasAcquired = true ∧ o.redisDown = false) ∧
    (o.redisDown = true →
      (handleIncomingMessageR w msg o).dropped = true ∧
      (handleIncomingMessageR w msg o).engineInvoked = false) := by
  refine ⟨?_, rfl, ?_, ?_⟩
  · intro w0 key
    simp [acquireLockW, setNXOutcome, acquireLock]
  · intro he
    cases hb : (acquireLockW w ("chat:processing:" ++ jsBeforeAt msg.fromJid)
        o.redisDown).1 with
    | false => simp [handleIncomingMessageR, hb] at he
    | true =>
        refine ⟨by simp [handleIncomingMessageR, hb], acquire_true_not_down _ _ _ hb⟩
  · intro hd
    have hb : (acquireLockW w ("chat:processing:" ++ jsBeforeAt msg.fromJid)
        o.redisDown).1 = false := by
      rw [hd]
      simp [acquireLockW, setNXOutcome, acquireLock]
    constructor <;> simp [handleIncomingMessageR, hb]

theorem lock_fail_closed_witness :
    (acquireLockW { } "chat:processing:593991" true).1 = false ∧
    ((handleIncomingMessageR exampleWorld exampleMsg2 { }).lockWasAcquired = true ∧
      ({ } : RouterOracle).redisDown = false) :=
  ⟨(lock_fail_closed exampleWorld exampleMsg2 { }).1 { } "chat:processing:593991",
    (lock_fail_closed exampleWorld exampleMsg2 { }).2.2.1 (by decide)⟩

end WhatsappPanel
